import Mathlib

/-!
# Verification of the `/api/generate` serverless handler

This file embeds the single request handler of `src/api/generate.js` as a
pure Lean function and proves properties about it.  The handler validates
the inbound request, builds a provider payload, runs a bounded retry loop
around one outbound call, and parses the provider's response envelope.

Modelling conventions:
* JavaScript `undefined`-able values are `Option`s.
* A thrown exception travelling to a `catch` is an `Except.error` carrying
  the error message.
* The provider (the external generative-AI HTTP API) is an environment
  parameter `provider : Nat → AttemptResult` giving the outcome of each
  outbound attempt; `JSON.parse` of the provider's text is likewise an
  environment outcome recorded next to the raw text, since both are
  external to the repository.
* The handler returns a trace: the list of response writes it performed,
  the number of outbound calls, the backoff delays (in milliseconds), and
  the payload it sent (if any call was made).
-/

namespace AiPcGen

/-- A JSON value, the shape of bodies travelling through the handler. -/
inductive Json where
  | null : Json
  | bool : Bool → Json
  | num : Int → Json
  | str : String → Json
  | arr : List Json → Json
  | obj : List (String × Json) → Json
  deriving Repr

/-- JavaScript `a || b` for a possibly-undefined string `a`:
falls back to `b` when `a` is `undefined` or the empty string. -/
def jsOr : Option String → String → String
  | none, d => d
  | some s, d => if s = "" then d else s

/-- JavaScript falsiness of a possibly-undefined string (`!x`):
true exactly for `undefined` and the empty string. -/
def jsFalsy : Option String → Bool
  | none => true
  | some s => s = ""

/-- JavaScript template-literal interpolation of a possibly-undefined
string: `undefined` renders as the literal text "undefined". -/
def jsInterpolate : Option String → String
  | none => "undefined"
  | some s => s

/-- The text of `candidates[0].content.parts[0]`, together with the
outcome of `JSON.parse` on it (the parse outcome is part of the
environment model since `JSON.parse` is a language builtin). -/
structure TextVal where
  raw : String
  parsed : Except String Json

/-- One element of `content.parts`. -/
structure PartT where
  text : Option TextVal

/-- The `content` object of a candidate. -/
structure ContentT where
  parts : Option (List PartT)

/-- One element of the provider envelope's `candidates` array. -/
structure Candidate where
  content : Option ContentT
  finishReason : Option String
  safetyRatings : Option String

/-- The provider's response envelope (`apiResponse`). -/
structure Envelope where
  candidates : Option (List Candidate)

/-- A transport-level HTTP response from the provider.  `errMsg` models
`errorData.error?.message` as recovered on the non-ok path (already
`none` when the error body fails to parse, matching the
`.catch(() => ({}))`); `body` models the outcome of `response.json()`
as consumed on the ok path. -/
structure HttpResp where
  status : Nat
  statusText : String
  errMsg : Option String
  body : Except String Envelope

/-- The outcome of one `fetch` attempt: either the promise rejects with
an error message, or an HTTP response arrives. -/
inductive AttemptResult where
  | thrown : String → AttemptResult
  | http : HttpResp → AttemptResult

/-- JavaScript `response.ok`: status in the range 200–299. -/
def respOk (status : Nat) : Bool := 200 ≤ status && status < 300

/-- Message template of the fatal 403/400 throw (line 104 of the source). -/
def fatalMsg (status : Nat) (errorMessage : String) : String :=
  "Gemini API Failed (Status: " ++ toString status ++
    "). Check Key validity, Billing, and API Enablement. Message: " ++ errorMessage

/-- Message template of the retryable 429/5xx throw (line 109 of the source). -/
def retryMsg (status : Nat) (errorMessage : String) : String :=
  "API returned status " ++ toString status ++ ". Retrying... Message: " ++ errorMessage

/-- Message template of the unhandled-status throw (line 113 of the source). -/
def unhandledMsg (status : Nat) (errorMessage : String) : String :=
  "API returned unhandled status " ++ toString status ++ ". Message: " ++ errorMessage

/-- One iteration body of the retry loop's `try` block: produces either
the parsed envelope (success, `break`) or the message of the thrown
error (landing in the `catch`). -/
def attemptCall : AttemptResult → Except String Envelope
  | .thrown msg => .error msg
  | .http r =>
    if respOk r.status then
      r.body
    else
      let errorMessage := jsOr r.errMsg r.statusText
      if r.status = 403 || r.status = 400 then
        .error (fatalMsg r.status errorMessage)
      else if r.status = 429 || 500 ≤ r.status then
        .error (retryMsg r.status errorMessage)
      else
        .error (unhandledMsg r.status errorMessage)

/-- `MAX_RETRIES` of the source. -/
def MAX_RETRIES : Nat := 5

/-- The retry loop (`for i = 0; i < MAX_RETRIES; i++` of the source),
started at attempt index `i` with `fuel` attempts remaining.  Returns
the loop outcome (envelope on success, the last error's message on
budget exhaustion), the number of calls made, and the list of backoff
delays awaited (ms, `2^i * 1000`).  The catch block delays and retries
on every caught error while attempts remain (`i < MAX_RETRIES - 1`),
returning the final failure only on the last attempt. -/
def runAttempts (provider : Nat → AttemptResult) : Nat → Nat →
    Except String Envelope × Nat × List Nat
  | _, 0 => (.error "", 0, [])
  | i, fuel + 1 =>
    match attemptCall (provider i) with
    | .ok env => (.ok env, 1, [])
    | .error msg =>
      if fuel = 0 then
        (.error msg, 1, [])
      else
        let rest := runAttempts provider (i + 1) fuel
        (rest.1, rest.2.1 + 1, (2 ^ i * 1000) :: rest.2.2)

/-- The `systemPrompt` template literal (line 63 of the source). -/
def systemPrompt (prompt : String) : String :=
  "你是一位專業的 AI PC 組裝顧問。你的任務是根據用戶的需求 (" ++ prompt ++
  ")，從提供的硬體規格參考圖表 (如下方) 中，挑選出最適合的電腦組件，並以 JSON 格式輸出。\n\n" ++
  "1. 請務必輸出 8 個主要組件：主機板、處理器、散熱器、記憶體、顯示卡、儲存裝置、電源供應器、機殼。\n" ++
  "2. componentName 必須是組件的中文名稱和簡寫（例如：處理器(CPU)）。\n" ++
  "3. componentDescription 必須包含具體的型號、規格和簡短的推薦理由，並確保所有組件之間是完全相容的（例如：CPU 與 MB 的腳位/晶片組、MB 與 RAM 的世代）。\n" ++
  "4. 你必須嚴格遵循提供的 JSON Schema，並只輸出 JSON 內容，不包含任何額外的文字或 Markdown 標記。\n" ++
  "5. 提供的硬體數據是參考資料，你應根據這些信息進行合理的硬體搭配。"

/-- The `userQuery` template literal (line 71 of the source): interpolates
the prompt and the (possibly undefined) hardware reference table. -/
def userQuery (prompt : String) (hardwareData : Option String) : String :=
  "用戶需求: " ++ prompt ++ "\n\n硬體規格參考圖表:\n" ++ jsInterpolate hardwareData

/-- The `responseSchema` constant (lines 9–26 of the source). -/
def responseSchema : Json :=
  .obj [
    ("type", .str "ARRAY"),
    ("items", .obj [
      ("type", .str "OBJECT"),
      ("properties", .obj [
        ("componentName", .obj [
          ("type", .str "STRING"),
          ("description", .str "電腦組件的名稱和簡寫（例如：處理器(CPU), 顯示卡(GPU)）。")]),
        ("componentDescription", .obj [
          ("type", .str "STRING"),
          ("description", .str "根據用戶需求推薦的具體型號、規格和簡短的推薦理由，並確保所有組件之間是完全相容的。")])]),
      ("required", .arr [.str "componentName", .str "componentDescription"]),
      ("propertyOrdering", .arr [.str "componentName", .str "componentDescription"])])]

/-- The outbound payload (line 73 of the source). -/
structure Payload where
  contentsText : String
  systemInstructionText : String
  responseMimeType : String
  schema : Json

/-- Builds the payload from the validated request fields. -/
def mkPayload (prompt : String) (hardwareData : Option String) : Payload :=
  { contentsText := userQuery prompt hardwareData
    systemInstructionText := systemPrompt prompt
    responseMimeType := "application/json"
    schema := responseSchema }

/-- The inbound request body after destructuring. -/
structure ReqBody where
  prompt : Option String
  hardwareData : Option String

/-- The inbound request.  `body = none` models a `req.body` whose
destructuring throws (the `catch` at line 54 of the source). -/
structure Request where
  method : String
  body : Option ReqBody

/-- One `res.status(s).json(b)` write. -/
structure HttpWrite where
  status : Nat
  body : Json

/-- The observable result of one handler invocation: the response writes
performed, the number of outbound calls, the backoff delays awaited and
the payload sent to the provider (if any call was made). -/
structure HandlerResult where
  writes : List HttpWrite
  calls : Nat
  delays : List Nat
  sentPayload : Option Payload

def methodNotAllowedMsg : String := "Method Not Allowed, please use POST."

def noApiKeyMsg : String :=
  "伺服器配置錯誤：未找到 API 金鑰。請檢查 Vercel 環境變數 GEMINI_API_KEY 是否已設定。"

def invalidBodyMsg : String := "Invalid JSON body or missing prompt/hardwareData."

def promptRequiredMsg : String := "Prompt is required."

def finalFailureMsg : String :=
  "無法生成規格清單。Gemini API 呼叫失敗，請檢查 API 金鑰、結帳和配額。"

def invalidJsonMsg : String :=
  "AI 生成了無效的 JSON 格式，可能因為安全過濾或模型輸齣錯誤。"

/-- The runtime TypeError message thrown by `candidate.content` when
`candidate` is `undefined` (line 139 of the source accesses `.content`
without optional chaining). -/
def undefinedCandidateErr : String :=
  "TypeError: Cannot read properties of undefined (reading content)"

/-- The `Gemini returned empty content` throw (line 146 of the source). -/
def emptyContentMsg (finishReason : String) : String :=
  "Gemini returned empty content. Finish Reason: " ++ finishReason

/-- `candidate.content?.parts?.[0]?.text` (line 139 of the source). -/
def extractJsonText (c : Candidate) : Option TextVal :=
  ((c.content.bind fun ct => ct.parts).bind List.head?).bind fun p => p.text

/-- The body of the output-parsing `try` block (lines 137–152 of the
source): either the value handed to `res.status(200).json(...)`, or the
message of the error reaching the `catch`. -/
def parseBody (env : Envelope) : Except String Json :=
  match env.candidates.bind List.head? with
  | none => .error undefinedCandidateErr
  | some c =>
    match extractJsonText c with
    | none => .error (emptyContentMsg (jsOr c.finishReason "UNKNOWN"))
    | some tv =>
      if tv.raw = "" then
        .error (emptyContentMsg (jsOr c.finishReason "UNKNOWN"))
      else
        tv.parsed

/-- The output-parsing stage with its `catch` applied (lines 137–161). -/
def parseStage (env : Envelope) : HttpWrite :=
  match parseBody env with
  | .ok j => ⟨200, j⟩
  | .error e =>
    ⟨500, .obj [("message", .str invalidJsonMsg), ("errorDetails", .str e)]⟩

/-- The handler (`export default async function handler` of the source),
as a function of the configured API key, the inbound request, and the
provider environment. -/
def handler (apiKey : Option String) (req : Request)
    (provider : Nat → AttemptResult) : HandlerResult :=
  if req.method ≠ "POST" then
    ⟨[⟨405, .obj [("message", .str methodNotAllowedMsg)]⟩], 0, [], none⟩
  else if jsFalsy apiKey then
    ⟨[⟨500, .obj [("message", .str noApiKeyMsg),
       ("errorCode", .str "NO_API_KEY_CONFIGURED")]⟩], 0, [], none⟩
  else
    match req.body with
    | none =>
      ⟨[⟨400, .obj [("message", .str invalidBodyMsg)]⟩], 0, [], none⟩
    | some b =>
      if jsFalsy b.prompt then
        ⟨[⟨400, .obj [("message", .str promptRequiredMsg)]⟩], 0, [], none⟩
      else
        let p := mkPayload (b.prompt.getD "") b.hardwareData
        match runAttempts provider 0 MAX_RETRIES with
        | (.error msg, calls, delays) =>
          ⟨[⟨500, .obj [("message", .str finalFailureMsg),
             ("errorDetails", .str msg)]⟩], calls, delays, some p⟩
        | (.ok env, calls, delays) =>
          ⟨[parseStage env], calls, delays, some p⟩

/-! ## Helper lemmas about single attempts and the retry loop -/

lemma jsFalsy_some (s : String) : jsFalsy (some s) = decide (s = "") := rfl

lemma attemptCall_429 (r : HttpResp) (hs : r.status = 429) :
    attemptCall (.http r) = .error (retryMsg 429 (jsOr r.errMsg r.statusText)) := by
  rcases r with ⟨s, st, em, bd⟩
  simp only at hs
  subst hs
  rfl

lemma attemptCall_ok (r : HttpResp) (hok : respOk r.status = true)
    (env : Envelope) (hb : r.body = .ok env) :
    attemptCall (.http r) = .ok env := by
  simp [attemptCall, hok, hb]

lemma runAttempts_ok (provider : Nat → AttemptResult) (i fuel : Nat)
    (env : Envelope) (h : attemptCall (provider i) = .ok env) :
    runAttempts provider i (fuel + 1) = (.ok env, 1, []) := by
  simp [runAttempts, h]

lemma runAttempts_error_last (provider : Nat → AttemptResult) (i : Nat)
    (m : String) (h : attemptCall (provider i) = .error m) :
    runAttempts provider i 1 = (.error m, 1, []) := by
  simp [runAttempts, h]

lemma runAttempts_error_cons (provider : Nat → AttemptResult) (i fuel : Nat)
    (hf : fuel ≠ 0) (m : String) (h : attemptCall (provider i) = .error m) :
    runAttempts provider i (fuel + 1) =
      ((runAttempts provider (i + 1) fuel).1,
       (runAttempts provider (i + 1) fuel).2.1 + 1,
       (2 ^ i * 1000) :: (runAttempts provider (i + 1) fuel).2.2) := by
  simp [runAttempts, h, hf]

/-- Lemma: on a well-formed POST request with a configured key and a
non-empty prompt, the handler's result is the retry loop's failure
outcome wrapped in the final 500 response. -/
lemma handler_valid_error (k pr : String) (hk : k ≠ "") (hpr : pr ≠ "")
    (hd : Option String) (provider : Nat → AttemptResult)
    (m : String) (calls : Nat) (delays : List Nat)
    (hr : runAttempts provider 0 MAX_RETRIES = (.error m, calls, delays)) :
    handler (some k) ⟨"POST", some ⟨some pr, hd⟩⟩ provider =
      ⟨[⟨500, .obj [("message", .str finalFailureMsg),
         ("errorDetails", .str m)]⟩], calls, delays, some (mkPayload pr hd)⟩ := by
  simp [handler, jsFalsy, hk, hpr, hr]

/-- Lemma: on a well-formed POST request with a configured key and a
non-empty prompt, a successful retry loop hands its envelope to the
output-parsing stage. -/
lemma handler_valid_ok (k pr : String) (hk : k ≠ "") (hpr : pr ≠ "")
    (hd : Option String) (provider : Nat → AttemptResult)
    (env : Envelope) (calls : Nat) (delays : List Nat)
    (hr : runAttempts provider 0 MAX_RETRIES = (.ok env, calls, delays)) :
    handler (some k) ⟨"POST", some ⟨some pr, hd⟩⟩ provider =
      ⟨[parseStage env], calls, delays, some (mkPayload pr hd)⟩ := by
  simp [handler, jsFalsy, hk, hpr, hr]

/-- Lemma: when every one of the five attempts draws an HTTP 429 from the
provider, the retry loop makes 5 calls, backs off 1s, 2s, 4s, 8s, and ends
with the 5th attempt's thrown message. -/
lemma runAttempts_all429 (provider : Nat → AttemptResult)
    (h : ∀ i, i < 5 → ∃ r, provider i = AttemptResult.http r ∧ r.status = 429) :
    ∃ m, attemptCall (provider 4) = .error m ∧
      runAttempts provider 0 5 = (.error m, 5, [1000, 2000, 4000, 8000]) := by
  obtain ⟨r0, hp0, hs0⟩ := h 0 (by norm_num)
  obtain ⟨r1, hp1, hs1⟩ := h 1 (by norm_num)
  obtain ⟨r2, hp2, hs2⟩ := h 2 (by norm_num)
  obtain ⟨r3, hp3, hs3⟩ := h 3 (by norm_num)
  obtain ⟨r4, hp4, hs4⟩ := h 4 (by norm_num)
  have e0 : attemptCall (provider 0) = .error (retryMsg 429 (jsOr r0.errMsg r0.statusText)) := by
    rw [hp0]; exact attemptCall_429 r0 hs0
  have e1 : attemptCall (provider 1) = .error (retryMsg 429 (jsOr r1.errMsg r1.statusText)) := by
    rw [hp1]; exact attemptCall_429 r1 hs1
  have e2 : attemptCall (provider 2) = .error (retryMsg 429 (jsOr r2.errMsg r2.statusText)) := by
    rw [hp2]; exact attemptCall_429 r2 hs2
  have e3 : attemptCall (provider 3) = .error (retryMsg 429 (jsOr r3.errMsg r3.statusText)) := by
    rw [hp3]; exact attemptCall_429 r3 hs3
  have e4 : attemptCall (provider 4) = .error (retryMsg 429 (jsOr r4.errMsg r4.statusText)) := by
    rw [hp4]; exact attemptCall_429 r4 hs4
  refine ⟨_, e4, ?_⟩
  simp [runAttempts, e0, e1, e2, e3, e4]

/-- Lemma: when attempts 0–3 draw HTTP 429 and attempt 4 succeeds with
envelope `env`, the loop makes 5 calls with backoff 1s, 2s, 4s, 8s and
returns the envelope. -/
lemma runAttempts_429_then_ok (provider : Nat → AttemptResult)
    (h : ∀ i, i < 4 → ∃ r, provider i = AttemptResult.http r ∧ r.status = 429)
    (env : Envelope) (h4 : attemptCall (provider 4) = .ok env) :
    runAttempts provider 0 5 = (.ok env, 5, [1000, 2000, 4000, 8000]) := by
  obtain ⟨r0, hp0, hs0⟩ := h 0 (by norm_num)
  obtain ⟨r1, hp1, hs1⟩ := h 1 (by norm_num)
  obtain ⟨r2, hp2, hs2⟩ := h 2 (by norm_num)
  obtain ⟨r3, hp3, hs3⟩ := h 3 (by norm_num)
  have e0 : attemptCall (provider 0) = .error (retryMsg 429 (jsOr r0.errMsg r0.statusText)) := by
    rw [hp0]; exact attemptCall_429 r0 hs0
  have e1 : attemptCall (provider 1) = .error (retryMsg 429 (jsOr r1.errMsg r1.statusText)) := by
    rw [hp1]; exact attemptCall_429 r1 hs1
  have e2 : attemptCall (provider 2) = .error (retryMsg 429 (jsOr r2.errMsg r2.statusText)) := by
    rw [hp2]; exact attemptCall_429 r2 hs2
  have e3 : attemptCall (provider 3) = .error (retryMsg 429 (jsOr r3.errMsg r3.statusText)) := by
    rw [hp3]; exact attemptCall_429 r3 hs3
  simp [runAttempts, e0, e1, e2, e3, h4]

/-! ## Sample fixtures used by witnesses -/

/-- A 429 rate-limit response with no parsed error body. -/
def rateLimited : HttpResp := ⟨429, "Too Many Requests", none, .ok ⟨none⟩⟩

/-- A provider text whose `JSON.parse` yields the empty array. -/
def emptyArrayText : TextVal := ⟨"[]", .ok (.arr [])⟩

/-- A candidate carrying `emptyArrayText` as its only part. -/
def okCandidate : Candidate := ⟨some ⟨some [⟨some emptyArrayText⟩]⟩, some "STOP", none⟩

/-- An envelope whose first candidate is `okCandidate`. -/
def okEnvelope : Envelope := ⟨some [okCandidate]⟩

/-- A 200 response delivering `okEnvelope`. -/
def okResp : HttpResp := ⟨200, "OK", none, .ok okEnvelope⟩

/-! ## Claim theorems -/

/-- C1: the claim states that a 403 from the provider on the first attempt
causes exactly 1 outbound call, no retry and no backoff.  The code instead
catches the 403 throw in the same `catch` block as transient errors and
retries it: with a provider answering 403 Forbidden on every attempt, the
handler makes 5 outbound calls, waits through the backoff delays
1s, 2s, 4s, 8s, and only then returns the 500 response carrying the 5th
attempt's 403 message — contradicting the code's own comments, which
reserve retry for 429/5xx. -/
theorem forbidden_status_retried_to_exhaustion :
    (handler (some "key") ⟨"POST", some ⟨some "a gaming pc", none⟩⟩
        (fun _ => .http ⟨403, "Forbidden", none, .ok ⟨none⟩⟩)).calls = 5 ∧
    (handler (some "key") ⟨"POST", some ⟨some "a gaming pc", none⟩⟩
        (fun _ => .http ⟨403, "Forbidden", none, .ok ⟨none⟩⟩)).delays =
      [1000, 2000, 4000, 8000] ∧
    (handler (some "key") ⟨"POST", some ⟨some "a gaming pc", none⟩⟩
        (fun _ => .http ⟨403, "Forbidden", none, .ok ⟨none⟩⟩)).writes =
      [⟨500, .obj [("message", .str finalFailureMsg),
         ("errorDetails", .str (fatalMsg 403 "Forbidden"))]⟩] ∧
    (handler (some "key") ⟨"POST", some ⟨some "a gaming pc", none⟩⟩
        (fun _ => .http ⟨403, "Forbidden", none, .ok ⟨none⟩⟩)).calls ≠ 1 :=
  ⟨rfl, rfl, rfl, by decide⟩

/-- C2: when the provider returns HTTP 429 on every one of the five
attempts, the handler makes exactly 5 outbound calls and then returns a
single 500 response whose `errorDetails` is the message of the 5th
attempt's failure. -/
theorem rate_limit_exhausts_five_attempts (k pr : String) (hd : Option String)
    (provider : Nat → AttemptResult) (hk : k ≠ "") (hpr : pr ≠ "")
    (h : ∀ i, i < 5 → ∃ r, provider i = AttemptResult.http r ∧ r.status = 429) :
    (handler (some k) ⟨"POST", some ⟨some pr, hd⟩⟩ provider).calls = 5 ∧
    ∃ m, attemptCall (provider 4) = .error m ∧
      (handler (some k) ⟨"POST", some ⟨some pr, hd⟩⟩ provider).writes =
        [⟨500, .obj [("message", .str finalFailureMsg),
           ("errorDetails", .str m)]⟩] := by
  obtain ⟨m, hm, hrun⟩ := runAttempts_all429 provider h
  rw [handler_valid_error k pr hk hpr hd provider m 5 [1000, 2000, 4000, 8000] hrun]
  exact ⟨rfl, m, hm, rfl⟩

theorem rate_limit_exhausts_five_attempts_witness :
    (handler (some "key") ⟨"POST", some ⟨some "pc", none⟩⟩
        (fun _ => AttemptResult.http rateLimited)).calls = 5 ∧
    ∃ m, attemptCall ((fun _ => AttemptResult.http rateLimited) 4) = .error m ∧
      (handler (some "key") ⟨"POST", some ⟨some "pc", none⟩⟩
          (fun _ => AttemptResult.http rateLimited)).writes =
        [⟨500, .obj [("message", .str finalFailureMsg),
           ("errorDetails", .str m)]⟩] :=
  rate_limit_exhausts_five_attempts "key" "pc" none _ (by decide) (by decide)
    (fun _ _ => ⟨rateLimited, rfl, rfl⟩)

/-- C3: when the provider returns HTTP 429 on attempts 1–4 and a
successful response whose text parses to `j` on attempt 5, the handler
makes exactly 5 outbound calls, backs off 1s, 2s, 4s, 8s (15s = 15
time-units cumulative, one time-unit being the 1000 ms base delay), and
returns the parsed success result. -/
theorem backoff_then_success (k pr : String) (hd : Option String)
    (provider : Nat → AttemptResult) (hk : k ≠ "") (hpr : pr ≠ "")
    (h4 : ∀ i, i < 4 → ∃ r, provider i = AttemptResult.http r ∧ r.status = 429)
    (r5 : HttpResp) (hp5 : provider 4 = .http r5) (hok : respOk r5.status = true)
    (env : Envelope) (hb : r5.body = .ok env)
    (c : Candidate) (cs : List Candidate) (hc : env.candidates = some (c :: cs))
    (tv : TextVal) (ht : extractJsonText c = some tv) (hraw : tv.raw ≠ "")
    (j : Json) (hj : tv.parsed = .ok j) :
    handler (some k) ⟨"POST", some ⟨some pr, hd⟩⟩ provider =
      ⟨[⟨200, j⟩], 5, [1000, 2000, 4000, 8000], some (mkPayload pr hd)⟩ ∧
    (handler (some k) ⟨"POST", some ⟨some pr, hd⟩⟩ provider).delays.sum = 15 * 1000 := by
  have hcall : attemptCall (provider 4) = .ok env := by
    rw [hp5]; exact attemptCall_ok r5 hok env hb
  have hrun := runAttempts_429_then_ok provider h4 env hcall
  have hps : parseStage env = ⟨200, j⟩ := by
    simp [parseStage, parseBody, hc, ht, hraw, hj]
  rw [handler_valid_ok k pr hk hpr hd provider env 5 [1000, 2000, 4000, 8000] hrun, hps]
  exact ⟨rfl, by norm_num⟩

theorem backoff_then_success_witness :
    handler (some "key") ⟨"POST", some ⟨some "pc", some "cpu table"⟩⟩
        (fun i => if i < 4 then .http rateLimited else .http okResp) =
      ⟨[⟨200, .arr []⟩], 5, [1000, 2000, 4000, 8000],
        some (mkPayload "pc" (some "cpu table"))⟩ ∧
    (handler (some "key") ⟨"POST", some ⟨some "pc", some "cpu table"⟩⟩
        (fun i => if i < 4 then .http rateLimited else .http okResp)).delays.sum =
      15 * 1000 :=
  backoff_then_success "key" "pc" (some "cpu table") _ (by decide) (by decide)
    (fun i hi => ⟨rateLimited, by interval_cases i <;> rfl, rfl⟩)
    okResp rfl rfl okEnvelope rfl okCandidate [] rfl emptyArrayText rfl (by decide)
    (.arr []) rfl

/-- C4 counterexample: the claim quantifies over every request regardless
of method; but a GET request arriving with no API key configured is
answered by the 405 method-not-allowed response, not by the 500
`NO_API_KEY_CONFIGURED` response — the method check precedes the key
check. -/
theorem get_without_key_yields_405 :
    handler none ⟨"GET", some ⟨some "pc", none⟩⟩ (fun _ => .thrown "unreachable") =
      ⟨[⟨405, .obj [("message", .str methodNotAllowedMsg)]⟩], 0, [], none⟩ ∧
    ∀ w ∈ (handler none ⟨"GET", some ⟨some "pc", none⟩⟩
        (fun _ => .thrown "unreachable")).writes, w.status ≠ 500 := by
  refine ⟨rfl, ?_⟩
  intro w hw
  have h1 : (handler none ⟨"GET", some ⟨some "pc", none⟩⟩
      (fun _ => AttemptResult.thrown "unreachable")).writes =
      [⟨405, .obj [("message", .str methodNotAllowedMsg)]⟩] := rfl
  rw [h1] at hw
  simp only [List.mem_singleton] at hw
  subst hw
  decide

/-- C4 (amended): for every POST request, regardless of body content,
arriving when no API key is configured, the handler makes zero outbound
calls and returns the single 500 response with error code
`NO_API_KEY_CONFIGURED`; the body being universally quantified (including
an unparsable one) shows the check precedes any request-body
validation. -/
theorem post_without_key_immediate_config_error (body : Option ReqBody)
    (provider : Nat → AttemptResult) :
    handler none ⟨"POST", body⟩ provider =
      ⟨[⟨500, .obj [("message", .str noApiKeyMsg),
         ("errorCode", .str "NO_API_KEY_CONFIGURED")]⟩], 0, [], none⟩ := rfl

/-- C5: for every POST request whose body is unparsable, lacks the prompt
field, or carries an empty-string prompt, the handler makes zero outbound
calls and returns a single 400 response. -/
theorem missing_prompt_rejected_400 (k : String) (hk : k ≠ "")
    (b : Option ReqBody) (provider : Nat → AttemptResult)
    (hb : b = none ∨ (∃ hd, b = some ⟨none, hd⟩) ∨ (∃ hd, b = some ⟨some "", hd⟩)) :
    (handler (some k) ⟨"POST", b⟩ provider).calls = 0 ∧
    ∃ m, (handler (some k) ⟨"POST", b⟩ provider).writes =
      [⟨400, .obj [("message", .str m)]⟩] := by
  rcases hb with rfl | ⟨hd, rfl⟩ | ⟨hd, rfl⟩
  · exact ⟨by simp [handler, jsFalsy, hk], invalidBodyMsg, by simp [handler, jsFalsy, hk]⟩
  · exact ⟨by simp [handler, jsFalsy, hk], promptRequiredMsg, by simp [handler, jsFalsy, hk]⟩
  · exact ⟨by simp [handler, jsFalsy, hk], promptRequiredMsg, by simp [handler, jsFalsy, hk]⟩

theorem missing_prompt_rejected_400_witness :
    (handler (some "key") ⟨"POST", some ⟨none, none⟩⟩
        (fun _ => .thrown "unreachable")).calls = 0 ∧
    ∃ m, (handler (some "key") ⟨"POST", some ⟨none, none⟩⟩
        (fun _ => .thrown "unreachable")).writes =
      [⟨400, .obj [("message", .str m)]⟩] :=
  missing_prompt_rejected_400 "key" (by decide) _ _ (Or.inr (Or.inl ⟨none, rfl⟩))

/-- C6: for every request with a non-empty prompt where the first provider
call succeeds and its text parses to `j`, the handler returns the single
200 response whose body is exactly `j`, unmodified; `j` is universally
quantified over all JSON values, so no re-validation against the output
schema takes place, and re-emission of the parsed text is lossless. -/
theorem success_returns_parsed_json (k pr : String) (hd : Option String)
    (provider : Nat → AttemptResult) (hk : k ≠ "") (hpr : pr ≠ "")
    (r : HttpResp) (hp : provider 0 = .http r) (hok : respOk r.status = true)
    (env : Envelope) (hb : r.body = .ok env)
    (c : Candidate) (cs : List Candidate) (hc : env.candidates = some (c :: cs))
    (tv : TextVal) (ht : extractJsonText c = some tv) (hraw : tv.raw ≠ "")
    (j : Json) (hj : tv.parsed = .ok j) :
    handler (some k) ⟨"POST", some ⟨some pr, hd⟩⟩ provider =
      ⟨[⟨200, j⟩], 1, [], some (mkPayload pr hd)⟩ := by
  have hcall : attemptCall (provider 0) = .ok env := by
    rw [hp]; exact attemptCall_ok r hok env hb
  have hrun : runAttempts provider 0 5 = (.ok env, 1, []) :=
    runAttempts_ok provider 0 4 env hcall
  have hps : parseStage env = ⟨200, j⟩ := by
    simp [parseStage, parseBody, hc, ht, hraw, hj]
  rw [handler_valid_ok k pr hk hpr hd provider env 1 [] hrun, hps]

theorem success_returns_parsed_json_witness :
    handler (some "key") ⟨"POST", some ⟨some "pc", none⟩⟩
        (fun _ => .http okResp) =
      ⟨[⟨200, .arr []⟩], 1, [], some (mkPayload "pc" none)⟩ :=
  success_returns_parsed_json "key" "pc" none _ (by decide) (by decide)
    okResp rfl rfl okEnvelope rfl okCandidate [] rfl emptyArrayText rfl (by decide)
    (.arr []) rfl

/-- C7 counterexample: the claim states the 500 response reports the
candidate's safety signal to the caller; but the handler's caller-visible
result is identical for two envelopes that differ only in their safety
signal (the signal is only written to the server log), so the safety
signal is not reported to the caller. -/
theorem safety_signal_not_surfaced :
    handler (some "key") ⟨"POST", some ⟨some "pc", none⟩⟩
        (fun _ => .http ⟨200, "OK", none,
          .ok ⟨some [⟨some ⟨some []⟩, some "SAFETY", some "HARM_HIGH"⟩]⟩⟩) =
      handler (some "key") ⟨"POST", some ⟨some "pc", none⟩⟩
        (fun _ => .http ⟨200, "OK", none,
          .ok ⟨some [⟨some ⟨some []⟩, some "SAFETY", some "NEGLIGIBLE"⟩]⟩⟩) ∧
    (some "HARM_HIGH" : Option String) ≠ some "NEGLIGIBLE" :=
  ⟨rfl, by decide⟩

/-- C7 (amended): when the transport-level response succeeds but
`candidates[0].content.parts` is empty, the handler makes no further
outbound calls (exactly 1 in total) and returns a single 500 response
whose `errorDetails` reports the candidate's finish reason; the safety
signal is only logged, not included in the response. -/
theorem empty_parts_reports_finish_reason (k pr : String) (hd : Option String)
    (provider : Nat → AttemptResult) (hk : k ≠ "") (hpr : pr ≠ "")
    (r : HttpResp) (hp : provider 0 = .http r) (hok : respOk r.status = true)
    (fr : String) (hfr : fr ≠ "") (sr : Option String) (cs : List Candidate)
    (hb : r.body = .ok ⟨some (⟨some ⟨some []⟩, some fr, sr⟩ :: cs)⟩) :
    handler (some k) ⟨"POST", some ⟨some pr, hd⟩⟩ provider =
      ⟨[⟨500, .obj [("message", .str invalidJsonMsg),
         ("errorDetails", .str (emptyContentMsg fr))]⟩], 1, [],
        some (mkPayload pr hd)⟩ := by
  have hcall : attemptCall (provider 0) =
      .ok ⟨some (⟨some ⟨some []⟩, some fr, sr⟩ :: cs)⟩ := by
    rw [hp]; exact attemptCall_ok r hok _ hb
  have hrun : runAttempts provider 0 5 =
      (.ok ⟨some (⟨some ⟨some []⟩, some fr, sr⟩ :: cs)⟩, 1, []) :=
    runAttempts_ok provider 0 4 _ hcall
  have hps : parseStage ⟨some (⟨some ⟨some []⟩, some fr, sr⟩ :: cs)⟩ =
      ⟨500, .obj [("message", .str invalidJsonMsg),
        ("errorDetails", .str (emptyContentMsg fr))]⟩ := by
    simp [parseStage, parseBody, extractJsonText, jsOr, hfr]
  rw [handler_valid_ok k pr hk hpr hd provider _ 1 [] hrun, hps]

theorem empty_parts_reports_finish_reason_witness :
    handler (some "key") ⟨"POST", some ⟨some "pc", none⟩⟩
        (fun _ => .http ⟨200, "OK", none,
          .ok ⟨some [⟨some ⟨some []⟩, some "SAFETY", some "HARM_HIGH"⟩]⟩⟩) =
      ⟨[⟨500, .obj [("message", .str invalidJsonMsg),
         ("errorDetails", .str (emptyContentMsg "SAFETY"))]⟩], 1, [],
        some (mkPayload "pc" none)⟩ :=
  empty_parts_reports_finish_reason "key" "pc" none _ (by decide) (by decide)
    ⟨200, "OK", none, .ok ⟨some [⟨some ⟨some []⟩, some "SAFETY", some "HARM_HIGH"⟩]⟩⟩
    rfl rfl "SAFETY" (by decide) (some "HARM_HIGH") [] rfl

/-- C8: every invocation of the handler performs exactly one response
write — every control-flow path (method rejection, missing key, bad body,
missing prompt, retry exhaustion, and both outcomes of the output-parsing
stage) ends in exactly one status/body write, so no path produces both a
success and an error response and no failure is swallowed without a
response. -/
theorem every_invocation_writes_exactly_once (apiKey : Option String)
    (req : Request) (provider : Nat → AttemptResult) :
    (handler apiKey req provider).writes.length = 1 := by
  unfold handler
  split
  · rfl
  · split
    · rfl
    · split
      · rfl
      · split
        · rfl
        · split <;> rfl

/-- C9: on a valid request whose body lacks the `hardwareData` field, the
user-content string sent to the provider ends, where the reference table
would appear, in the literal text "undefined" — the JavaScript
template-literal rendering of an undefined value — rather than an empty
section. -/
theorem missing_hardware_data_interpolates_undefined (k pr : String)
    (provider : Nat → AttemptResult) (hk : k ≠ "") (hpr : pr ≠ "") :
    (handler (some k) ⟨"POST", some ⟨some pr, none⟩⟩ provider).sentPayload =
      some (mkPayload pr none) ∧
    (mkPayload pr none).contentsText =
      ("用戶需求: " ++ pr ++ "\n\n硬體規格參考圖表:\n") ++ "undefined" := by
  constructor
  · rcases hr : runAttempts provider 0 MAX_RETRIES with ⟨res, calls, delays⟩
    cases res with
    | error m =>
      rw [handler_valid_error k pr hk hpr none provider m calls delays hr]
    | ok env =>
      rw [handler_valid_ok k pr hk hpr none provider env calls delays hr]
  · rfl

theorem missing_hardware_data_interpolates_undefined_witness :
    (handler (some "key") ⟨"POST", some ⟨some "pc", none⟩⟩
        (fun _ => .thrown "offline")).sentPayload = some (mkPayload "pc" none) ∧
    (mkPayload "pc" none).contentsText =
      ("用戶需求: " ++ "pc" ++ "\n\n硬體規格參考圖表:\n") ++ "undefined" :=
  missing_hardware_data_interpolates_undefined "key" "pc" _ (by decide) (by decide)

/-- C10: for every provider envelope shape the output-parsing stage
produces a response of status 200 or 500 and never an uncaught exception;
in particular an envelope with no `candidates[0]` is answered through the
parse-failure branch — the generic invalid-JSON message with the thrown
TypeError's text in `errorDetails` — not through the
empty-content/finish-reason branch. -/
theorem envelope_shapes_never_escape (env : Envelope) :
    ((parseStage env).status = 200 ∨ (parseStage env).status = 500) ∧
    (env.candidates.bind List.head? = none →
      parseStage env = ⟨500, .obj [("message", .str invalidJsonMsg),
        ("errorDetails", .str undefinedCandidateErr)]⟩) := by
  constructor
  · cases h : parseBody env with
    | error e => right; simp [parseStage, h]
    | ok j => left; simp [parseStage, h]
  · intro h
    unfold parseStage parseBody
    rw [h]

theorem envelope_shapes_never_escape_witness :
    parseStage ⟨none⟩ = ⟨500, .obj [("message", .str invalidJsonMsg),
      ("errorDetails", .str undefinedCandidateErr)]⟩ :=
  (envelope_shapes_never_escape ⟨none⟩).2 rfl

end AiPcGen
